import Mathlib

/-!
Verification of the vSphere client core (package `vsphereclient`).

The repository ships the client's test suite (`src/unnamed/part_001`), which
pins, via a mock SOAP round-tripper, the exact sequence of remote calls each
public operation issues against a fixed inventory fixture (`clientSuite.SetUpTest`).
The client implementation itself is not among the source files, so the
operations below are shallow embeddings reconstructed from the specification
(§4 of the design document) and anchored, call for call, to the sequences the
tests assert.  Every operation is a pure function from an immutable server
model to the list of remote calls it issues together with its result.
-/

namespace VSphereClient

/-- Managed Object Reference: a (type, opaque id) pair identifying one remote
object; equality is structural. -/
structure MOR where
  type : String
  value : String
deriving DecidableEq, Repr

/-- Property value as used by the fixture: strings (names, power states),
booleans (`summary.accessible`), and managed-object references. -/
inductive PropValue where
  | str (s : String)
  | boolean (b : Bool)
  | ref (m : MOR)
  | refList (ms : List MOR)
deriving DecidableEq, Repr

/-- One named property of a managed object, as returned by a retrieval call. -/
structure DynamicProperty where
  name : String
  val : PropValue
deriving DecidableEq, Repr

/-- Property set of one managed object, mirroring `types.ObjectContent`. -/
structure ObjectContent where
  obj : MOR
  propSet : List DynamicProperty
deriving DecidableEq, Repr

/-- Fault kinds distinguished by the client's fault-classification policy. -/
inductive FaultKind where
  | fileNotFound
  | notAuthenticated
  | other (name : String)
deriving DecidableEq, Repr

/-- A remote fault together with its remote-supplied human-readable message,
mirroring `types.LocalizedMethodFault`. -/
structure LocalizedMethodFault where
  fault : FaultKind
  localizedMessage : String
deriving DecidableEq, Repr

/-- The remote calls the mock round-tripper records.  `retrieveProperties`
carries the keys of the objects whose properties are fetched; the task-issuing
calls carry their target reference; `deleteDatastoreFile` carries the verbatim
datastore path string. -/
inductive Call where
  | retrieveProperties (keys : List String)
  | destroyTask (target : MOR)
  | powerOffVMTask (target : MOR)
  | createFolder (name : String)
  | moveIntoFolderTask (folder : MOR) (objs : List MOR)
  | deleteDatastoreFile (path : String)
  | reconfigVMTask (target : MOR)
  | createPropertyCollector
  | createFilter
  | waitForUpdatesEx
  | destroyPropertyCollector
  | logout
deriving DecidableEq, Repr

/-- The remote server model: the root folder key from the service content, the
static object graph (key → property sets of that container's contents, as in
the mock round-tripper's `contents` map), and the optional fault installed for
the datastore file-delete task (the mock's `taskError[deleteDatastoreFileTask]`). -/
structure Server where
  rootFolder : String
  contents : List (String × List ObjectContent)
  deleteTaskError : Option LocalizedMethodFault
deriving DecidableEq, Repr

/-- Children (contents) of the container with the given key. -/
def children (srv : Server) (key : String) : List ObjectContent :=
  (srv.contents.lookup key).getD []

/-- Look up a property by name in an object's property set. -/
def getProp (oc : ObjectContent) (n : String) : Option PropValue :=
  (oc.propSet.find? (fun p => p.name == n)).map (fun p => p.val)

/-- The `name` property of an object (empty when absent or untyped). -/
def ocName (oc : ObjectContent) : String :=
  match getProp oc "name" with
  | some (PropValue.str s) => s
  | _ => ""

/-- A string-valued property of an object (empty when absent or untyped). -/
def stringProp (oc : ObjectContent) (n : String) : String :=
  match getProp oc n with
  | some (PropValue.str s) => s
  | _ => ""

/-- A boolean-valued property of an object (false when absent or untyped). -/
def boolProp (oc : ObjectContent) (n : String) : Bool :=
  match getProp oc n with
  | some (PropValue.boolean b) => b
  | _ => false

/-- A reference-valued property of an object. -/
def morProp (oc : ObjectContent) (n : String) : Option MOR :=
  match getProp oc n with
  | some (PropValue.ref m) => some m
  | _ => none

/-- Children of a container whose `name` property equals the segment by exact
byte comparison (the resolver does no normalization). -/
def childrenNamed (cs : List ObjectContent) (seg : String) : List ObjectContent :=
  cs.filter (fun oc => ocName oc == seg)

/-- Accumulator-based splitter over characters, used by `splitPath`. -/
def splitSegs : List Char → List Char → List String
  | [], acc => [String.mk acc.reverse]
  | c :: cs, acc =>
      if c = '/' then String.mk acc.reverse :: splitSegs cs []
      else splitSegs cs (c :: acc)

/-- Split a slash-separated path into its segments (Go's `strings.Split(path, "/")`). -/
def splitPath (path : String) : List String :=
  splitSegs path.data []

/-- Resolver-level failures, distinct from protocol errors (spec §7). -/
inductive ResolveError where
  | notFound (seg : String)
  | ambiguousPath (seg : String)
deriving DecidableEq, Repr

/-- Result of a resolution: the matched objects, or a resolver-level failure. -/
inductive Res (α : Type) where
  | ok (a : α)
  | err (e : ResolveError)
deriving DecidableEq, Repr

/-- Modelled from the spec: the Path Resolver's descent (§4.2); the resolver
implementation is not among the source files.  Starting from the current
folder, each non-final segment is matched by exact name equality against the
container's children: zero matches fail with `NotFound`, more than one match
fails with `AmbiguousPath` (duplicate sibling names are a data-integrity
condition and are never silently resolved), exactly one match descends.  A
final literal segment returns the single named leaf; a final `*` returns all
children at that level (the fixture's wildcard level holds the leaf VMs
directly, so subtree flattening is the identity here).  Returns the list of
container keys whose children were retrieved, paired with the outcome. -/
def resolveFrom (srv : Server) (cur : MOR) :
    List String → List String × Res (List ObjectContent)
  | [] => ([], Res.ok [])
  | seg :: rest =>
    let cs := children srv cur.value
    if rest = [] then
      if seg = "*" then ([cur.value], Res.ok cs)
      else
        match childrenNamed cs seg with
        | [] => ([cur.value], Res.err (ResolveError.notFound seg))
        | [c] => ([cur.value], Res.ok [c])
        | _ => ([cur.value], Res.err (ResolveError.ambiguousPath seg))
    else
      match childrenNamed cs seg with
      | [] => ([cur.value], Res.err (ResolveError.notFound seg))
      | [c] =>
        let res := resolveFrom srv c.obj rest
        (cur.value :: res.1, res.2)
      | _ => ([cur.value], Res.err (ResolveError.ambiguousPath seg))

/-- Find the datacenter by name among the root folder's children
(the finder's datacenter lookup pinned by the tests' leading
`RetrieveProperties(FakeRootFolder)` calls). -/
def findDatacenter (srv : Server) (dcName : String) : Option ObjectContent :=
  (children srv srv.rootFolder).find? (fun oc => ocName oc == dcName)

/-- The datacenter's own property record (the entry of the datacenter's
contents describing the datacenter itself, carrying its folder references). -/
def dcRecord (srv : Server) (dc : ObjectContent) : Option ObjectContent :=
  (children srv dc.obj.value).find? (fun oc => oc.obj == dc.obj)

/-- A folder reference (`vmFolder`, `datastoreFolder`, `hostFolder`) of the
datacenter. -/
def dcFolderRef (srv : Server) (dc : ObjectContent) (field : String) : Option MOR :=
  match dcRecord srv dc with
  | some rec0 => morProp rec0 field
  | none => none

/-- The retrieval calls every operation performs up front to locate the
datacenter: two retrieves of the service-content root folder followed by one
of the datacenter's record, matching the leading
`RetrieveProperties(FakeRootFolder, FakeRootFolder, FakeDatacenter)` calls the
tests assert. -/
def dcPrelude (srv : Server) (dcName : String) : List Call :=
  [Call.retrieveProperties [srv.rootFolder], Call.retrieveProperties [srv.rootFolder]] ++
    (match findDatacenter srv dcName with
     | some dc => [Call.retrieveProperties [dc.obj.value]]
     | none => [])

/-- The task subscription cycle the Task Waiter performs for one task:
create a property collector, create a filter scoped to the task, long-poll
for updates until terminal, and tear the collector down (spec §4.3; the tests
assert the `CreatePropertyCollector`/`CreateFilter`/`WaitForUpdatesEx` triple
per waited task; the teardown call is not recorded by the mock). -/
def waitCycle : List Call :=
  [Call.createPropertyCollector, Call.createFilter, Call.waitForUpdatesEx,
   Call.destroyPropertyCollector]

/-- Outcome a waited task can reach: terminal success, terminal failure with a
fault, or caller cancellation observed during the long poll. -/
inductive TaskOutcome where
  | success
  | fault (f : LocalizedMethodFault)
  | cancelled
deriving DecidableEq, Repr

/-- Decoded result of one wait (spec §4.3). -/
inductive WaitResult where
  | ok
  | taskFault (f : LocalizedMethodFault)
  | cancelled
deriving DecidableEq, Repr

/-- Modelled from the spec: the Task Waiter (§4.3); its implementation is not
among the source files.  On every exit path — success, failure, or
cancellation — the subscription it created is torn down before returning, so
the cycle's trace is the same scoped `waitCycle` in all three cases. -/
def waitTask : TaskOutcome → List Call × WaitResult
  | TaskOutcome.success => (waitCycle, WaitResult.ok)
  | TaskOutcome.fault f => (waitCycle, WaitResult.taskFault f)
  | TaskOutcome.cancelled => (waitCycle, WaitResult.cancelled)

/-- Wait cycles for `n` independently waited tasks, issued after all tasks
have been started (`TestRemoveVirtualMachines` asserts the three
collector/filter/wait triples only after the last `Destroy_Task`). -/
def waitPhase (n : Nat) : List Call :=
  (List.replicate n waitCycle).flatten

/-- A resolved virtual machine: its reference, name, and observed
`runtime.powerState`. -/
structure VMInfo where
  ref : MOR
  name : String
  powerState : String
deriving DecidableEq, Repr

/-- The property record of one VM, looked up in the server's contents. -/
def vmRecord (srv : Server) (m : MOR) : Option ObjectContent :=
  (children srv m.value).find? (fun oc => oc.obj == m)

/-- Build a `VMInfo` from the VM's retrieved properties. -/
def vmInfoOf (srv : Server) (m : MOR) : VMInfo :=
  match vmRecord srv m with
  | some oc => ⟨m, ocName oc, stringProp oc "runtime.powerState"⟩
  | none => ⟨m, "", ""⟩

/-- Resolve a VM path pattern: locate the datacenter, walk the pattern from
the datacenter's VM folder, then retrieve the matched VMs' properties
(name, power state); the trace records the datacenter prelude, one retrieval
per folder descended, and the batched retrieval of the matched VMs. -/
def resolveVMs (srv : Server) (dcName pattern : String) :
    List Call × Res (List VMInfo) :=
  let pre := dcPrelude srv dcName
  match findDatacenter srv dcName with
  | none => (pre, Res.err (ResolveError.notFound dcName))
  | some dc =>
    match dcFolderRef srv dc "vmFolder" with
    | none => (pre, Res.err (ResolveError.notFound "vmFolder"))
    | some vmF =>
      let res := resolveFrom srv vmF (splitPath pattern)
      match res.2 with
      | Res.err e =>
        (pre ++ res.1.map (fun k => Call.retrieveProperties [k]), Res.err e)
      | Res.ok ocs =>
        (pre ++ res.1.map (fun k => Call.retrieveProperties [k]) ++
           [Call.retrieveProperties (ocs.map (fun oc => oc.obj.value))],
         Res.ok (ocs.map (fun oc => vmInfoOf srv oc.obj)))

/-- Read-only VM enumeration: resolution plus per-VM properties, in the order
the remote side returned children (spec §4.4). -/
def virtualMachines (srv : Server) (dcName pattern : String) :
    List Call × Res (List VMInfo) :=
  resolveVMs srv dcName pattern

/-- Whether a resolved VM's observed power state is powered-on. -/
def poweredOn (v : VMInfo) : Bool :=
  v.powerState == "poweredOn"

/-- Task-issuing phase of `removeVirtualMachines`: for each matched VM in
input order, a `PowerOffVM_Task` when it is powered on, then its
`Destroy_Task` — without waiting on the power-off first
(`TestRemoveVirtualMachines` asserts `Destroy_Task, PowerOffVM_Task,
Destroy_Task` with all wait cycles after). -/
def issueRemovalTasks : List VMInfo → List Call
  | [] => []
  | v :: rest =>
    (if poweredOn v then [Call.powerOffVMTask v.ref] else []) ++
      (Call.destroyTask v.ref :: issueRemovalTasks rest)

/-- Number of tasks `issueRemovalTasks` starts (one per VM, two when the VM
must be powered off first). -/
def removalTaskCount : List VMInfo → Nat
  | [] => 0
  | v :: rest => (if poweredOn v then 2 else 1) + removalTaskCount rest

/-- Bulk VM removal: resolve the pattern to VMs, issue all power-off and
destroy tasks, then wait on every started task
(call order per `TestRemoveVirtualMachines`). -/
def removeVirtualMachines (srv : Server) (dcName pattern : String) : List Call :=
  match (resolveVMs srv dcName pattern).2 with
  | Res.err _ => (resolveVMs srv dcName pattern).1
  | Res.ok vms =>
    (resolveVMs srv dcName pattern).1 ++ issueRemovalTasks vms ++
      waitPhase (removalTaskCount vms)

/-- A datastore entry as returned by `Datastores()`: its name and its
`summary.accessible` flag. -/
structure DatastoreInfo where
  name : String
  accessible : Bool
deriving DecidableEq, Repr

/-- Read-only datastore enumeration: locate the datacenter, retrieve the
datastore folder's children, and return them in remote order with each
entry's accessibility flag unchanged (call order per `TestDatastores`). -/
def datastores (srv : Server) (dcName : String) :
    List Call × Res (List DatastoreInfo) :=
  let pre := dcPrelude srv dcName
  match findDatacenter srv dcName with
  | none => (pre, Res.err (ResolveError.notFound dcName))
  | some dc =>
    match dcFolderRef srv dc "datastoreFolder" with
    | none => (pre, Res.err (ResolveError.notFound "datastoreFolder"))
    | some dsF =>
      (pre ++ [Call.retrieveProperties [dsF.value]],
       Res.ok ((children srv dsF.value).map
         (fun oc => ⟨ocName oc, boolProp oc "summary.accessible"⟩)))

/-- Read-only compute-resource enumeration: the host folder's children in
remote order (call order per `TestComputeResources`). -/
def computeResources (srv : Server) (dcName : String) :
    List Call × Res (List String) :=
  let pre := dcPrelude srv dcName
  match findDatacenter srv dcName with
  | none => (pre, Res.err (ResolveError.notFound dcName))
  | some dc =>
    match dcFolderRef srv dc "hostFolder" with
    | none => (pre, Res.err (ResolveError.notFound "hostFolder"))
    | some hostF =>
      (pre ++ [Call.retrieveProperties [hostF.value]],
       Res.ok ((children srv hostF.value).map ocName))

/-- Resolve a folder path under the datacenter's VM folder to a single
folder reference. -/
def resolveFolder (srv : Server) (dcName path : String) :
    List Call × Res MOR :=
  let pre := dcPrelude srv dcName
  match findDatacenter srv dcName with
  | none => (pre, Res.err (ResolveError.notFound dcName))
  | some dc =>
    match dcFolderRef srv dc "vmFolder" with
    | none => (pre, Res.err (ResolveError.notFound "vmFolder"))
    | some vmF =>
      let res := resolveFrom srv vmF (splitPath path)
      let tr := pre ++ res.1.map (fun k => Call.retrieveProperties [k])
      match res.2 with
      | Res.err e => (tr, Res.err e)
      | Res.ok [oc] => (tr, Res.ok oc.obj)
      | Res.ok _ => (tr, Res.err (ResolveError.notFound path))

/-- Folder-path creation: locate the datacenter, then issue one
`CreateFolder` call per path segment, in order, without first resolving which
segments already exist (`TestEnsureVMFolder` asserts two `CreateFolder` calls
for `"foo/bar"` with no folder-children retrievals, although both segments
pre-exist in the fixture; already-existing folders are tolerated at the remote
side via duplicate-name handling). -/
def ensureVMFolder (srv : Server) (dcName path : String) : List Call :=
  dcPrelude srv dcName ++ (splitPath path).map Call.createFolder

/-- Move the given VM references into the folder at `path`: resolve the
destination once, issue a single batched `MoveIntoFolder_Task` covering all
the references, and wait on it once (call order per `TestMoveVMsInto`). -/
def moveVMsInto (srv : Server) (dcName path : String) (vms : List MOR) : List Call :=
  match (resolveFolder srv dcName path).2 with
  | Res.err _ => (resolveFolder srv dcName path).1
  | Res.ok f =>
    (resolveFolder srv dcName path).1 ++ [Call.moveIntoFolderTask f vms] ++
      (waitTask TaskOutcome.success).1

/-- Destroy the folder tree at `path`: resolve the folder, issue
`Destroy_Task`, wait (call order per `TestDestroyVMFolder`). -/
def destroyVMFolder (srv : Server) (dcName path : String) : List Call :=
  match (resolveFolder srv dcName path).2 with
  | Res.err _ => (resolveFolder srv dcName path).1
  | Res.ok f =>
    (resolveFolder srv dcName path).1 ++ [Call.destroyTask f] ++
      (waitTask TaskOutcome.success).1

/-- Reconfigure a VM's extra config: issue `ReconfigVM_Task` and wait
(call order per `TestUpdateVirtualMachineExtraConfig`). -/
def updateVirtualMachineExtraConfig (_srv : Server) (vm : MOR) : List Call :=
  [Call.reconfigVMTask vm] ++ (waitTask TaskOutcome.success).1

/-- Outcome of the datastore file-delete task on this server (the mock's
`taskError[deleteDatastoreFileTask]`). -/
def deleteOutcome (srv : Server) : TaskOutcome :=
  match srv.deleteTaskError with
  | none => TaskOutcome.success
  | some f => TaskOutcome.fault f

/-- Datastore file deletion: two root retrieves to locate the datacenter, the
file-delete call carrying the caller's datastore path string verbatim, then
one wait; a `FileNotFound` fault is reclassified as success, any other fault
propagates with the remote-supplied localized message as the error text
(call order per `TestDeleteDatastoreFile`; fault policy per
`TestDeleteDatastoreFileNotFound` and `TestDeleteDatastoreError`). -/
def deleteDatastoreFile (srv : Server) (path : String) :
    List Call × Option String :=
  ([Call.retrieveProperties [srv.rootFolder], Call.retrieveProperties [srv.rootFolder],
      Call.deleteDatastoreFile path] ++ (waitTask (deleteOutcome srv)).1,
   match (waitTask (deleteOutcome srv)).2 with
   | WaitResult.ok => none
   | WaitResult.taskFault f =>
     match f.fault with
     | FaultKind.fileNotFound => none
     | _ => some f.localizedMessage
   | WaitResult.cancelled => some "context canceled")

/-- Close the client: invoke session logout, exactly once, regardless of the
state of prior operations (`TestClose` asserts the single `Logout` call). -/
def close (_srv : Server) : List Call × Unit :=
  ([Call.logout], ())

/-- Reference of the fixture's root folder. -/
def fakeRootFolderMOR : MOR := ⟨"Folder", "FakeRootFolder"⟩

/-- Reference of the fixture's datacenter. -/
def fakeDatacenterMOR : MOR := ⟨"Datacenter", "FakeDatacenter"⟩

/-- Reference of the fixture's VM folder. -/
def fakeVmFolderMOR : MOR := ⟨"Folder", "FakeVmFolder"⟩

/-- Reference of the fixture's host folder. -/
def fakeHostFolderMOR : MOR := ⟨"Folder", "FakeHostFolder"⟩

/-- Reference of the fixture's datastore folder. -/
def fakeDatastoreFolderMOR : MOR := ⟨"Folder", "FakeDatastoreFolder"⟩

/-- Reference of the fixture's controller-level VM folder (named "foo"). -/
def fakeControllerVmFolderMOR : MOR := ⟨"Folder", "FakeControllerVmFolder"⟩

/-- Reference of the fixture's model-level VM folder (named "bar"). -/
def fakeModelVmFolderMOR : MOR := ⟨"Folder", "FakeModelVmFolder"⟩

/-- Reference of the fixture's powered-off VM `vm-0`. -/
def fakeVm0MOR : MOR := ⟨"VirtualMachine", "FakeVm0"⟩

/-- Reference of the fixture's powered-on VM `vm-1`. -/
def fakeVm1MOR : MOR := ⟨"VirtualMachine", "FakeVm1"⟩

/-- Property set of `datastore1` (inaccessible), as in the fixture. -/
def fakeDatastore1OC : ObjectContent :=
  ⟨⟨"Datastore", "FakeDatastore1"⟩,
   [⟨"name", PropValue.str "datastore1"⟩,
    ⟨"summary.accessible", PropValue.boolean false⟩]⟩

/-- Property set of `datastore2` (accessible), as in the fixture. -/
def fakeDatastore2OC : ObjectContent :=
  ⟨⟨"Datastore", "FakeDatastore2"⟩,
   [⟨"name", PropValue.str "datastore2"⟩,
    ⟨"summary.accessible", PropValue.boolean true⟩]⟩

/-- The fixture's object graph, translated from `clientSuite.SetUpTest`'s
`contents` map.  The datastore-folder children are a parameter so that the
same fixture can be instantiated with the remote side returning them in
either order.  The network/port-group entries and the VMs' device and
resource-pool properties are omitted: no verified claim reads them. -/
def fakeContents (dsChildren : List ObjectContent) :
    List (String × List ObjectContent) :=
  [("FakeRootFolder",
    [⟨fakeDatacenterMOR, [⟨"name", PropValue.str "dc0"⟩]⟩]),
   ("FakeDatacenter",
    [⟨fakeDatacenterMOR,
      [⟨"name", PropValue.str "dc0"⟩,
       ⟨"hostFolder", PropValue.ref fakeHostFolderMOR⟩,
       ⟨"vmFolder", PropValue.ref fakeVmFolderMOR⟩,
       ⟨"datastoreFolder", PropValue.ref fakeDatastoreFolderMOR⟩]⟩,
     ⟨fakeVmFolderMOR, [⟨"name", PropValue.str "vm"⟩]⟩,
     ⟨fakeHostFolderMOR, [⟨"name", PropValue.str "vm"⟩]⟩]),
   ("FakeHostFolder",
    [⟨⟨"ComputeResource", "z0"⟩,
      [⟨"resourcePool", PropValue.ref ⟨"ResourcePool", "FakeResourcePool1"⟩⟩,
       ⟨"datastore", PropValue.refList [⟨"Datastore", "FakeDatastore1"⟩]⟩,
       ⟨"name", PropValue.str "z0"⟩]⟩,
     ⟨⟨"ComputeResource", "z1"⟩,
      [⟨"resourcePool", PropValue.ref ⟨"ResourcePool", "FakeResourcePool2"⟩⟩,
       ⟨"datastore", PropValue.refList [⟨"Datastore", "FakeDatastore2"⟩]⟩,
       ⟨"name", PropValue.str "z1"⟩]⟩]),
   ("FakeDatastoreFolder", dsChildren),
   ("FakeVmFolder",
    [⟨fakeControllerVmFolderMOR, [⟨"name", PropValue.str "foo"⟩]⟩]),
   ("FakeControllerVmFolder",
    [⟨fakeModelVmFolderMOR, [⟨"name", PropValue.str "bar"⟩]⟩]),
   ("FakeModelVmFolder",
    [⟨fakeVm0MOR, [⟨"name", PropValue.str "vm-0"⟩]⟩,
     ⟨fakeVm1MOR, [⟨"name", PropValue.str "vm-1"⟩]⟩]),
   ("FakeVm0",
    [⟨fakeVm0MOR,
      [⟨"name", PropValue.str "vm-0"⟩,
       ⟨"runtime.powerState", PropValue.str "poweredOff"⟩]⟩]),
   ("FakeVm1",
    [⟨fakeVm1MOR,
      [⟨"name", PropValue.str "vm-1"⟩,
       ⟨"runtime.powerState", PropValue.str "poweredOn"⟩]⟩]),
   ("FakeDatastore1", [fakeDatastore1OC]),
   ("FakeDatastore2", [fakeDatastore2OC])]

/-- The fixture server, with the datastore children in the order the fixture
declares them and no fault installed for the file-delete task. -/
def fakeServer : Server :=
  ⟨"FakeRootFolder", fakeContents [fakeDatastore1OC, fakeDatastore2OC], none⟩

/-- The fixture server with the remote side returning the datastore children
in the opposite order. -/
def fakeServerSwappedDS : Server :=
  ⟨"FakeRootFolder", fakeContents [fakeDatastore2OC, fakeDatastore1OC], none⟩

/-- The fixture server with a `FileNotFound` fault installed for the
file-delete task (`TestDeleteDatastoreFileNotFound`). -/
def fakeServerFileNotFound : Server :=
  { fakeServer with
    deleteTaskError := some ⟨FaultKind.fileNotFound, ""⟩ }

/-- The fixture server with a `NotAuthenticated` fault with message "nope"
installed for the file-delete task (`TestDeleteDatastoreError`). -/
def fakeServerNotAuthenticated : Server :=
  { fakeServer with
    deleteTaskError := some ⟨FaultKind.notAuthenticated, "nope"⟩ }

/-- `VMInfo` of the fixture's `vm-0` as resolved from the fixture. -/
def fakeVm0Info : VMInfo := ⟨fakeVm0MOR, "vm-0", "poweredOff"⟩

/-- `VMInfo` of the fixture's `vm-1` as resolved from the fixture. -/
def fakeVm1Info : VMInfo := ⟨fakeVm1MOR, "vm-1", "poweredOn"⟩

/-- A malformed inventory with two sibling folders both named "a", used to
exercise the resolver's duplicate-name handling. -/
def dupServer : Server :=
  ⟨"root",
   [("F", [⟨⟨"Folder", "A1"⟩, [⟨"name", PropValue.str "a"⟩]⟩,
           ⟨⟨"Folder", "A2"⟩, [⟨"name", PropValue.str "a"⟩]⟩])],
   none⟩

/-- Whether a call starts a remote task (power-off or destroy). -/
def isTaskIssue : Call → Bool
  | Call.destroyTask _ => true
  | Call.powerOffVMTask _ => true
  | _ => false

/-- Whether a call is a `PowerOffVM_Task`. -/
def isPowerOff : Call → Bool
  | Call.powerOffVMTask _ => true
  | _ => false

/-- Whether a call is a `Destroy_Task`. -/
def isDestroy : Call → Bool
  | Call.destroyTask _ => true
  | _ => false

/-- Whether a call is a property retrieval. -/
def isRetrieve : Call → Bool
  | Call.retrieveProperties _ => true
  | _ => false

/-- Whether a call is a `CreateFolder`. -/
def isCreateFolderCall : Call → Bool
  | Call.createFolder _ => true
  | _ => false

/-- Whether a call is a `MoveIntoFolder_Task`. -/
def isMoveInto : Call → Bool
  | Call.moveIntoFolderTask _ _ => true
  | _ => false

/-- Whether a call is the datastore file-delete call. -/
def isDeleteFile : Call → Bool
  | Call.deleteDatastoreFile _ => true
  | _ => false

/-- Whether a call belongs to the subscription lifecycle or the session
lifecycle (as opposed to an inventory read or a task-issuing method call). -/
def isWaitOrSession : Call → Bool
  | Call.createPropertyCollector => true
  | Call.createFilter => true
  | Call.waitForUpdatesEx => true
  | Call.destroyPropertyCollector => true
  | Call.logout => true
  | _ => false

/-- Whether some `WaitForUpdatesEx` call occurs strictly between positions
`i` and `j` of the trace. -/
def waitBetween (tr : List Call) (i j : Nat) : Bool :=
  ((List.range j).drop (i + 1)).any
    (fun k => tr.getD k Call.logout == Call.waitForUpdatesEx)

/-- Whether the pair of positions `(i, j)` respects the claimed ordering: if
position `i` holds a `PowerOffVM_Task` and position `j` holds the
`Destroy_Task` of the same VM, a `WaitForUpdatesEx` (the only point at which a
task can be observed terminal) must occur strictly between them. -/
def pairObservesPowerOff (tr : List Call) (i j : Nat) : Bool :=
  match tr.getD i Call.logout, tr.getD j Call.logout with
  | Call.powerOffVMTask v, Call.destroyTask w =>
    if v = w then waitBetween tr i j else true
  | _, _ => true

/-- Whether, throughout the trace, every VM's power-off task is observed
terminal (a `WaitForUpdatesEx` completes) before that VM's destroy task is
issued — the ordering the specification claims for `RemoveVirtualMachines`. -/
def powerOffObservedBeforeDestroy (tr : List Call) : Bool :=
  (List.range tr.length).all
    (fun i => (List.range tr.length).all (fun j => pairObservesPowerOff tr i j))

/-- Number of `CreatePropertyCollector` calls in a trace. -/
def openedCollectors (tr : List Call) : Nat :=
  tr.count Call.createPropertyCollector

/-- Number of `DestroyPropertyCollector` calls in a trace. -/
def closedCollectors (tr : List Call) : Nat :=
  tr.count Call.destroyPropertyCollector

namespace Lemmas

theorem mem_dcPrelude {srv : Server} {dcName : String} {c : Call}
    (h : c ∈ dcPrelude srv dcName) : isRetrieve c = true := by
  unfold dcPrelude at h
  rcases hfd : findDatacenter srv dcName with _ | dc <;> simp [hfd] at h <;>
    rcases h with rfl | rfl | rfl <;> rfl

theorem mem_resolveVMs_trace {srv : Server} {dcName pattern : String} {c : Call}
    (h : c ∈ (resolveVMs srv dcName pattern).1) : isRetrieve c = true := by
  unfold resolveVMs at h
  rcases hfd : findDatacenter srv dcName with _ | dc <;> simp only [hfd] at h
  · exact mem_dcPrelude h
  · rcases hvf : dcFolderRef srv dc "vmFolder" with _ | vmF <;>
      simp only [hvf] at h
    · exact mem_dcPrelude h
    · rcases hres : (resolveFrom srv vmF (splitPath pattern)).2 with ocs | e <;>
        simp only [hres, List.mem_append, List.mem_map, List.mem_singleton] at h
      · rcases h with (h | ⟨k, _, hk⟩) | h
        · exact mem_dcPrelude h
        · rw [← hk]; rfl
        · rw [h]; rfl
      · rcases h with h | ⟨k, _, hk⟩
        · exact mem_dcPrelude h
        · rw [← hk]; rfl

theorem mem_resolveFolder_trace {srv : Server} {dcName path : String} {c : Call}
    (h : c ∈ (resolveFolder srv dcName path).1) : isRetrieve c = true := by
  unfold resolveFolder at h
  rcases hfd : findDatacenter srv dcName with _ | dc <;> simp only [hfd] at h
  · exact mem_dcPrelude h
  · rcases hvf : dcFolderRef srv dc "vmFolder" with _ | vmF <;>
      simp only [hvf] at h
    · exact mem_dcPrelude h
    · rcases hres : (resolveFrom srv vmF (splitPath path)).2 with ocs | e <;>
        simp only [hres, List.mem_append, List.mem_map] at h
      · rcases ocs with _ | ⟨oc, _ | ocs⟩ <;>
          simp only [List.mem_append, List.mem_map] at h <;>
          (rcases h with h | ⟨k, _, hk⟩ <;> [exact mem_dcPrelude h; (rw [← hk]; rfl)])
      · rcases h with h | ⟨k, _, hk⟩
        · exact mem_dcPrelude h
        · rw [← hk]; rfl

theorem mem_issueRemovalTasks {vms : List VMInfo} {c : Call}
    (h : c ∈ issueRemovalTasks vms) : isTaskIssue c = true := by
  induction vms with
  | nil => simp [issueRemovalTasks] at h
  | cons v rest ih =>
    unfold issueRemovalTasks at h
    cases hp : poweredOn v <;> simp [hp] at h
    · rcases h with rfl | h
      · rfl
      · exact ih h
    · rcases h with rfl | rfl | h
      · rfl
      · rfl
      · exact ih h

theorem waitPhase_succ (n : Nat) :
    waitPhase (n + 1) = waitCycle ++ waitPhase n := by
  simp [waitPhase, List.replicate_succ]

theorem mem_waitPhase {n : Nat} {c : Call} (h : c ∈ waitPhase n) :
    c ∈ waitCycle := by
  induction n with
  | zero => simp [waitPhase] at h
  | succ n ih =>
    rw [waitPhase_succ, List.mem_append] at h
    rcases h with h | h
    · exact h
    · exact ih h

theorem count_waitPhase (n : Nat) (c : Call) :
    (waitPhase n).count c = n * waitCycle.count c := by
  induction n with
  | zero => simp [waitPhase]
  | succ n ih => rw [waitPhase_succ, List.count_append, ih]; ring

theorem count_eq_zero_of_pred {tr : List Call} {p : Call → Bool} {c : Call}
    (h : ∀ x ∈ tr, p x = true) (hc : p c = false) : tr.count c = 0 :=
  List.count_eq_zero.mpr (fun hm => by rw [h c hm] at hc; cases hc)

theorem waitTask_trace (o : TaskOutcome) : (waitTask o).1 = waitCycle := by
  cases o <;> rfl

theorem sublist_issueRemovalTasks {vms : List VMInfo} {v : VMInfo}
    (hv : v ∈ vms) (hp : poweredOn v = true) :
    List.Sublist [Call.powerOffVMTask v.ref, Call.destroyTask v.ref]
      (issueRemovalTasks vms) := by
  induction vms with
  | nil => cases hv
  | cons w rest ih =>
    rcases List.mem_cons.mp hv with rfl | hv
    · unfold issueRemovalTasks
      simp only [hp, if_true]
      exact List.sublist_append_left _ _
    · unfold issueRemovalTasks
      refine ((ih hv).trans ?_).trans (List.sublist_append_right _ _)
      exact (List.sublist_cons_self _ _)

theorem mem_waitCycle_not_issue {c : Call} (h : c ∈ waitCycle) :
    isTaskIssue c = false := by
  simp [waitCycle] at h
  rcases h with rfl | rfl | rfl | rfl <;> rfl

theorem waitPhase_not_issue {n : Nat} {c : Call} (h : c ∈ waitPhase n) :
    isTaskIssue c = false :=
  mem_waitCycle_not_issue (mem_waitPhase h)

theorem wos_not_retrieve {c : Call} (hc : isWaitOrSession c = true) :
    isRetrieve c = false := by
  cases c <;> first | rfl | simp [isWaitOrSession] at hc

theorem wos_not_issue {c : Call} (hc : isWaitOrSession c = true) :
    isTaskIssue c = false := by
  cases c <;> first | rfl | simp [isWaitOrSession] at hc

theorem count_resolveVMs_trace (srv : Server) (dcName pattern : String)
    {c : Call} (hc : isWaitOrSession c = true) :
    ((resolveVMs srv dcName pattern).1).count c = 0 :=
  count_eq_zero_of_pred (fun _ hx => mem_resolveVMs_trace hx) (wos_not_retrieve hc)

theorem count_resolveFolder_trace (srv : Server) (dcName path : String)
    {c : Call} (hc : isWaitOrSession c = true) :
    ((resolveFolder srv dcName path).1).count c = 0 :=
  count_eq_zero_of_pred (fun _ hx => mem_resolveFolder_trace hx) (wos_not_retrieve hc)

theorem count_issueRemovalTasks (vms : List VMInfo)
    {c : Call} (hc : isWaitOrSession c = true) :
    (issueRemovalTasks vms).count c = 0 :=
  count_eq_zero_of_pred (fun _ hx => mem_issueRemovalTasks hx) (wos_not_issue hc)

theorem count_removeVirtualMachines (srv : Server) (dcName pattern : String)
    {c : Call} (hc : isWaitOrSession c = true) :
    (removeVirtualMachines srv dcName pattern).count c =
      (match (resolveVMs srv dcName pattern).2 with
       | Res.ok vms => removalTaskCount vms
       | Res.err _ => 0) * waitCycle.count c := by
  unfold removeVirtualMachines
  rcases hres : (resolveVMs srv dcName pattern).2 with vms | e <;> simp only [hres]
  · rw [List.count_append, List.count_append,
      count_resolveVMs_trace srv dcName pattern hc,
      count_issueRemovalTasks vms hc, count_waitPhase]
    simp
  · rw [count_resolveVMs_trace srv dcName pattern hc, Nat.zero_mul]

theorem count_moveVMsInto (srv : Server) (dcName path : String) (vms : List MOR)
    {c : Call} (hc : isWaitOrSession c = true) :
    (moveVMsInto srv dcName path vms).count c =
      (match (resolveFolder srv dcName path).2 with
       | Res.ok _ => 1
       | Res.err _ => 0) * waitCycle.count c := by
  unfold moveVMsInto
  rcases hres : (resolveFolder srv dcName path).2 with f | e <;> simp only [hres]
  · rw [List.count_append, List.count_append,
      count_resolveFolder_trace srv dcName path hc, waitTask_trace]
    have hm : List.count c [Call.moveIntoFolderTask f vms] = 0 := by
      simp only [List.count_singleton]
      cases c <;> simp [isWaitOrSession] at hc ⊢
    rw [hm]; simp
  · rw [count_resolveFolder_trace srv dcName path hc, Nat.zero_mul]

theorem count_destroyVMFolder (srv : Server) (dcName path : String)
    {c : Call} (hc : isWaitOrSession c = true) :
    (destroyVMFolder srv dcName path).count c =
      (match (resolveFolder srv dcName path).2 with
       | Res.ok _ => 1
       | Res.err _ => 0) * waitCycle.count c := by
  unfold destroyVMFolder
  rcases hres : (resolveFolder srv dcName path).2 with f | e <;> simp only [hres]
  · rw [List.count_append, List.count_append,
      count_resolveFolder_trace srv dcName path hc, waitTask_trace]
    have hm : List.count c [Call.destroyTask f] = 0 := by
      simp only [List.count_singleton]
      cases c <;> simp [isWaitOrSession] at hc ⊢
    rw [hm]; simp
  · rw [count_resolveFolder_trace srv dcName path hc, Nat.zero_mul]

theorem count_deleteDatastoreFile (srv : Server) (path : String)
    {c : Call} (hc : isWaitOrSession c = true) :
    ((deleteDatastoreFile srv path).1).count c = waitCycle.count c := by
  unfold deleteDatastoreFile
  rw [waitTask_trace, List.count_append]
  have hm : List.count c
      [Call.retrieveProperties [srv.rootFolder], Call.retrieveProperties [srv.rootFolder],
       Call.deleteDatastoreFile path] = 0 := by
    cases c <;> simp [List.count_cons] <;> simp [isWaitOrSession] at hc
  rw [hm]; simp

theorem count_updateExtraConfig (srv : Server) (vm : MOR)
    {c : Call} (hc : isWaitOrSession c = true) :
    (updateVirtualMachineExtraConfig srv vm).count c = waitCycle.count c := by
  unfold updateVirtualMachineExtraConfig
  rw [waitTask_trace, List.count_append]
  have hm : List.count c [Call.reconfigVMTask vm] = 0 := by
    simp only [List.count_singleton]
    cases c <;> simp [isWaitOrSession] at hc ⊢
  rw [hm]; simp

theorem count_datastores (srv : Server) (dcName : String)
    {c : Call} (hc : isWaitOrSession c = true) :
    ((datastores srv dcName).1).count c = 0 := by
  refine count_eq_zero_of_pred (fun x hx => ?_) (wos_not_retrieve hc)
  unfold datastores at hx
  rcases hfd : findDatacenter srv dcName with _ | dc <;> simp only [hfd] at hx
  · exact mem_dcPrelude hx
  · rcases hds : dcFolderRef srv dc "datastoreFolder" with _ | dsF <;>
      simp only [hds] at hx
    · exact mem_dcPrelude hx
    · rcases List.mem_append.mp hx with hx | hx
      · exact mem_dcPrelude hx
      · simp at hx; rw [hx]; rfl

theorem count_computeResources (srv : Server) (dcName : String)
    {c : Call} (hc : isWaitOrSession c = true) :
    ((computeResources srv dcName).1).count c = 0 := by
  refine count_eq_zero_of_pred (fun x hx => ?_) (wos_not_retrieve hc)
  unfold computeResources at hx
  rcases hfd : findDatacenter srv dcName with _ | dc <;> simp only [hfd] at hx
  · exact mem_dcPrelude hx
  · rcases hhf : dcFolderRef srv dc "hostFolder" with _ | hostF <;>
      simp only [hhf] at hx
    · exact mem_dcPrelude hx
    · rcases List.mem_append.mp hx with hx | hx
      · exact mem_dcPrelude hx
      · simp at hx; rw [hx]; rfl

theorem count_ensureVMFolder (srv : Server) (dcName path : String)
    {c : Call} (hc : isWaitOrSession c = true) :
    (ensureVMFolder srv dcName path).count c = 0 := by
  rw [ensureVMFolder, List.count_append]
  rw [count_eq_zero_of_pred (fun _ hx => mem_dcPrelude hx) (wos_not_retrieve hc)]
  have hm : ((splitPath path).map Call.createFolder).count c = 0 := by
    refine List.count_eq_zero.mpr (fun hmem => ?_)
    rcases List.mem_map.mp hmem with ⟨s, _, hs⟩
    cases c <;> simp [isWaitOrSession] at hc <;> cases hs
  rw [hm]

end Lemmas

/-- C1, counterexample: on the fixture, `RemoveVirtualMachines "foo/bar/*"`
issues `vm-1`'s `Destroy_Task` with no `WaitForUpdatesEx` between it and
`vm-1`'s `PowerOffVM_Task` — every wait cycle comes after the last task is
issued — so the power-off is not observed terminal before the destroy is
issued, refuting the claimed per-VM wait-before-destroy ordering
(`TestRemoveVirtualMachines` asserts exactly this call sequence). -/
theorem removeVirtualMachines_destroys_before_poweroff_terminal :
    (removeVirtualMachines fakeServer "dc0" "foo/bar/*").count
        (Call.powerOffVMTask fakeVm1MOR) = 1 ∧
    (removeVirtualMachines fakeServer "dc0" "foo/bar/*").count
        (Call.destroyTask fakeVm1MOR) = 1 ∧
    powerOffObservedBeforeDestroy
        (removeVirtualMachines fakeServer "dc0" "foo/bar/*") = false := by
  decide

/-- C1, amended: within one `RemoveVirtualMachines` invocation, for every
matched VM whose observed power state is powered-on, the `PowerOffVM_Task` is
issued before the `Destroy_Task` for that same VM; but the operation does not
wait for the power-off to be observed terminal first — all power-off and
destroy tasks are issued up front and every task-wait subscription cycle
happens only after the last task has been issued. -/
theorem removeVirtualMachines_issue_order (srv : Server) (dcName pattern : String)
    (vms : List VMInfo)
    (h : (resolveVMs srv dcName pattern).2 = Res.ok vms) :
    (∀ v ∈ vms, poweredOn v = true →
        List.Sublist [Call.powerOffVMTask v.ref, Call.destroyTask v.ref]
          (removeVirtualMachines srv dcName pattern)) ∧
    removeVirtualMachines srv dcName pattern =
      (resolveVMs srv dcName pattern).1 ++ issueRemovalTasks vms ++
        waitPhase (removalTaskCount vms) ∧
    (∀ c ∈ (resolveVMs srv dcName pattern).1 ++ issueRemovalTasks vms,
        c ≠ Call.waitForUpdatesEx) ∧
    (∀ c ∈ waitPhase (removalTaskCount vms), isTaskIssue c = false) := by
  have hdec : removeVirtualMachines srv dcName pattern =
      (resolveVMs srv dcName pattern).1 ++ issueRemovalTasks vms ++
        waitPhase (removalTaskCount vms) := by
    unfold removeVirtualMachines
    rw [h]
  refine ⟨?_, hdec, ?_, fun c hc => Lemmas.waitPhase_not_issue hc⟩
  · intro v hv hp
    rw [hdec]
    refine (Lemmas.sublist_issueRemovalTasks hv hp).trans ?_
    exact (List.sublist_append_right _ _).trans (List.sublist_append_left _ _)
  · intro c hc heq
    rcases List.mem_append.mp hc with hc | hc
    · have := Lemmas.mem_resolveVMs_trace hc
      rw [heq] at this
      cases this
    · have := Lemmas.mem_issueRemovalTasks hc
      rw [heq] at this
      cases this

/-- Witness for C1's amended theorem: the fixture resolution of
`"foo/bar/*"` yields `vm-0` (powered off) and `vm-1` (powered on), and the
amended ordering holds on the resulting trace. -/
theorem removeVirtualMachines_issue_order_witness :
    (∀ v ∈ [fakeVm0Info, fakeVm1Info], poweredOn v = true →
        List.Sublist [Call.powerOffVMTask v.ref, Call.destroyTask v.ref]
          (removeVirtualMachines fakeServer "dc0" "foo/bar/*")) ∧
    removeVirtualMachines fakeServer "dc0" "foo/bar/*" =
      (resolveVMs fakeServer "dc0" "foo/bar/*").1 ++
        issueRemovalTasks [fakeVm0Info, fakeVm1Info] ++
        waitPhase (removalTaskCount [fakeVm0Info, fakeVm1Info]) ∧
    (∀ c ∈ (resolveVMs fakeServer "dc0" "foo/bar/*").1 ++
        issueRemovalTasks [fakeVm0Info, fakeVm1Info],
        c ≠ Call.waitForUpdatesEx) ∧
    (∀ c ∈ waitPhase (removalTaskCount [fakeVm0Info, fakeVm1Info]),
        isTaskIssue c = false) :=
  removeVirtualMachines_issue_order fakeServer "dc0" "foo/bar/*"
    [fakeVm0Info, fakeVm1Info] (by decide)

/-- C3: on the fixture, the wildcard pattern `"foo/bar/*"` resolves to exactly
`vm-0` (powered off) and `vm-1` (powered on), and `RemoveVirtualMachines`
issues exactly one `Destroy_Task` for each of the two VMs and exactly one
`PowerOffVM_Task` overall, targeted at the powered-on `vm-1`; the powered-off
`vm-0` receives no power-off call. -/
theorem removeVirtualMachines_one_destroy_per_vm :
    (resolveVMs fakeServer "dc0" "foo/bar/*").2 =
      Res.ok [fakeVm0Info, fakeVm1Info] ∧
    poweredOn fakeVm0Info = false ∧
    poweredOn fakeVm1Info = true ∧
    (removeVirtualMachines fakeServer "dc0" "foo/bar/*").count
        (Call.destroyTask fakeVm0MOR) = 1 ∧
    (removeVirtualMachines fakeServer "dc0" "foo/bar/*").count
        (Call.destroyTask fakeVm1MOR) = 1 ∧
    (removeVirtualMachines fakeServer "dc0" "foo/bar/*").countP isDestroy = 2 ∧
    (removeVirtualMachines fakeServer "dc0" "foo/bar/*").countP isPowerOff = 1 ∧
    (removeVirtualMachines fakeServer "dc0" "foo/bar/*").count
        (Call.powerOffVMTask fakeVm1MOR) = 1 ∧
    (removeVirtualMachines fakeServer "dc0" "foo/bar/*").count
        (Call.powerOffVMTask fakeVm0MOR) = 0 := by
  decide

/-- C2: `DeleteDatastoreFile` returns success when the remote file-delete
task succeeds or fails with a `FileNotFound` fault (idempotent delete
semantics); for any other fault kind — including authentication faults — it
returns an error whose text equals the fault's remote-supplied localized
message verbatim. -/
theorem deleteDatastoreFile_fault_policy (srv : Server) (path msg : String)
    (k : FaultKind) :
    (srv.deleteTaskError = none → (deleteDatastoreFile srv path).2 = none) ∧
    (srv.deleteTaskError = some ⟨FaultKind.fileNotFound, msg⟩ →
      (deleteDatastoreFile srv path).2 = none) ∧
    (k ≠ FaultKind.fileNotFound →
      srv.deleteTaskError = some ⟨k, msg⟩ →
      (deleteDatastoreFile srv path).2 = some msg) := by
  refine ⟨fun h => ?_, fun h => ?_, fun hk h => ?_⟩
  · simp [deleteDatastoreFile, deleteOutcome, waitTask, h]
  · simp [deleteDatastoreFile, deleteOutcome, waitTask, h]
  · cases k with
    | fileNotFound => exact absurd rfl hk
    | notAuthenticated => simp [deleteDatastoreFile, deleteOutcome, waitTask, h]
    | other s => simp [deleteDatastoreFile, deleteOutcome, waitTask, h]

/-- Witness for C2 at the two fault fixtures of the test suite: a
`FileNotFound` fault is reclassified as success
(`TestDeleteDatastoreFileNotFound`), and a `NotAuthenticated` fault with
localized message "nope" surfaces as exactly the error "nope"
(`TestDeleteDatastoreError`). -/
theorem deleteDatastoreFile_fault_policy_witness :
    (deleteDatastoreFile fakeServerFileNotFound "[datastore1] file/path").2 =
      none ∧
    (deleteDatastoreFile fakeServerNotAuthenticated "[datastore1] file/path").2 =
      some "nope" :=
  ⟨(deleteDatastoreFile_fault_policy fakeServerFileNotFound
      "[datastore1] file/path" "" FaultKind.fileNotFound).2.1 rfl,
   (deleteDatastoreFile_fault_policy fakeServerNotAuthenticated
      "[datastore1] file/path" "nope" FaultKind.notAuthenticated).2.2
     (by decide) rfl⟩

/-- C4, counterexample: on the fixture, the full path `"foo/bar"` already
exists below the VM folder (the resolver finds it), yet
`EnsureVMFolder "foo/bar"` issues two `CreateFolder` calls — where the claim
("one `CreateFolder` call per missing trailing segment only"; "if the full
path already exists it is a no-op") predicts zero — exactly as
`TestEnsureVMFolder` asserts. -/
theorem ensureVMFolder_creates_existing_segments :
    (resolveFrom fakeServer fakeVmFolderMOR (splitPath "foo/bar")).2 =
      Res.ok [⟨fakeModelVmFolderMOR, [⟨"name", PropValue.str "bar"⟩]⟩] ∧
    (ensureVMFolder fakeServer "dc0" "foo/bar").countP isCreateFolderCall = 2 := by
  decide

/-- C4, amended: `EnsureVMFolder` issues one `CreateFolder` call per path
segment, in order, unconditionally — it does not first resolve which prefix of
the path exists, and repeating the call repeats the same creation calls;
idempotency is at the effect level (creating an existing folder resolves to
the existing one via duplicate-name handling), not at the call level. -/
theorem ensureVMFolder_creates_every_segment (srv : Server) (dcName path : String) :
    (ensureVMFolder srv dcName path).filter isCreateFolderCall =
      (splitPath path).map Call.createFolder ∧
    (ensureVMFolder srv dcName path).countP isCreateFolderCall =
      (splitPath path).length := by
  have hpre : (dcPrelude srv dcName).filter isCreateFolderCall = [] := by
    refine List.filter_eq_nil_iff.mpr (fun c hc => ?_)
    have h1 := Lemmas.mem_dcPrelude hc
    cases c <;> simp_all [isCreateFolderCall, isRetrieve]
  have hmap : ((splitPath path).map Call.createFolder).filter isCreateFolderCall =
      (splitPath path).map Call.createFolder := by
    refine List.filter_eq_self.mpr (fun c hc => ?_)
    rcases List.mem_map.mp hc with ⟨s, _, hs⟩
    rw [← hs]; rfl
  have hfil : (ensureVMFolder srv dcName path).filter isCreateFolderCall =
      (splitPath path).map Call.createFolder := by
    rw [ensureVMFolder, List.filter_append, hpre, hmap, List.nil_append]
  refine ⟨hfil, ?_⟩
  rw [List.countP_eq_length_filter, hfil, List.length_map]

/-- C5: the Task Waiter tears its subscription down on every exit path —
success, task failure, and cancellation — so the number of opened property
collectors equals the number of closed ones in the waiter's own trace for
every outcome, and likewise in the complete traces of every waiting
operation. -/
theorem waiter_teardown_on_all_exits (o : TaskOutcome) (srv : Server)
    (dcName pattern path folderPath : String) (vms : List MOR) (vm : MOR) :
    openedCollectors (waitTask o).1 = closedCollectors (waitTask o).1 ∧
    openedCollectors (removeVirtualMachines srv dcName pattern) =
      closedCollectors (removeVirtualMachines srv dcName pattern) ∧
    openedCollectors (deleteDatastoreFile srv path).1 =
      closedCollectors (deleteDatastoreFile srv path).1 ∧
    openedCollectors (moveVMsInto srv dcName folderPath vms) =
      closedCollectors (moveVMsInto srv dcName folderPath vms) ∧
    openedCollectors (destroyVMFolder srv dcName folderPath) =
      closedCollectors (destroyVMFolder srv dcName folderPath) ∧
    openedCollectors (updateVirtualMachineExtraConfig srv vm) =
      closedCollectors (updateVirtualMachineExtraConfig srv vm) := by
  have hcc : List.count Call.createPropertyCollector waitCycle =
      List.count Call.destroyPropertyCollector waitCycle := by decide
  refine ⟨by cases o <;> rfl, ?_, ?_, ?_, ?_, ?_⟩
  · rw [openedCollectors, closedCollectors,
      @Lemmas.count_removeVirtualMachines srv dcName pattern
        Call.createPropertyCollector rfl,
      @Lemmas.count_removeVirtualMachines srv dcName pattern
        Call.destroyPropertyCollector rfl, hcc]
  · rw [openedCollectors, closedCollectors,
      @Lemmas.count_deleteDatastoreFile srv path Call.createPropertyCollector rfl,
      @Lemmas.count_deleteDatastoreFile srv path Call.destroyPropertyCollector rfl,
      hcc]
  · rw [openedCollectors, closedCollectors,
      @Lemmas.count_moveVMsInto srv dcName folderPath vms
        Call.createPropertyCollector rfl,
      @Lemmas.count_moveVMsInto srv dcName folderPath vms
        Call.destroyPropertyCollector rfl, hcc]
  · rw [openedCollectors, closedCollectors,
      @Lemmas.count_destroyVMFolder srv dcName folderPath
        Call.createPropertyCollector rfl,
      @Lemmas.count_destroyVMFolder srv dcName folderPath
        Call.destroyPropertyCollector rfl, hcc]
  · rw [openedCollectors, closedCollectors,
      @Lemmas.count_updateExtraConfig srv vm Call.createPropertyCollector rfl,
      @Lemmas.count_updateExtraConfig srv vm Call.destroyPropertyCollector rfl,
      hcc]

/-- C6: the read-only enumerations return entries in the order the remote
side returned children, with no client-side re-sorting and each accessibility
flag unchanged: on the fixture, `Datastores()` returns `datastore1`
(inaccessible) then `datastore2` (accessible); when the remote side returns
the same children in the opposite order, the output order follows it (so the
result is not alphabetized); and `VirtualMachines "foo/bar/*"` returns `vm-0`
then `vm-1` in remote child order. -/
theorem enumerations_preserve_remote_order :
    (datastores fakeServer "dc0").2 =
      Res.ok [⟨"datastore1", false⟩, ⟨"datastore2", true⟩] ∧
    (datastores fakeServerSwappedDS "dc0").2 =
      Res.ok [⟨"datastore2", true⟩, ⟨"datastore1", false⟩] ∧
    (virtualMachines fakeServer "dc0" "foo/bar/*").2 =
      Res.ok [fakeVm0Info, fakeVm1Info] := by
  decide

/-- C7: `Close` invokes session logout exactly once per call — its trace is
exactly the single `Logout` call, independent of anything a prior operation
did — and no other operation of the client ever invokes logout. -/
theorem close_logout_exactly_once (srv : Server)
    (dcName pattern path folderPath : String) (vms : List MOR) (vm : MOR) :
    (close srv).1 = [Call.logout] ∧
    (close srv).1.count Call.logout = 1 ∧
    (removeVirtualMachines srv dcName pattern).count Call.logout = 0 ∧
    (virtualMachines srv dcName pattern).1.count Call.logout = 0 ∧
    (datastores srv dcName).1.count Call.logout = 0 ∧
    (computeResources srv dcName).1.count Call.logout = 0 ∧
    (deleteDatastoreFile srv path).1.count Call.logout = 0 ∧
    (ensureVMFolder srv dcName folderPath).count Call.logout = 0 ∧
    (moveVMsInto srv dcName folderPath vms).count Call.logout = 0 ∧
    (destroyVMFolder srv dcName folderPath).count Call.logout = 0 ∧
    (updateVirtualMachineExtraConfig srv vm).count Call.logout = 0 := by
  have hwc : List.count Call.logout waitCycle = 0 := by decide
  refine ⟨rfl, rfl, ?_, ?_, ?_, ?_, ?_, ?_, ?_, ?_, ?_⟩
  · rw [@Lemmas.count_removeVirtualMachines srv dcName pattern Call.logout rfl, hwc,
      Nat.mul_zero]
  · exact @Lemmas.count_resolveVMs_trace srv dcName pattern Call.logout rfl
  · exact @Lemmas.count_datastores srv dcName Call.logout rfl
  · exact @Lemmas.count_computeResources srv dcName Call.logout rfl
  · rw [@Lemmas.count_deleteDatastoreFile srv path Call.logout rfl, hwc]
  · exact @Lemmas.count_ensureVMFolder srv dcName folderPath Call.logout rfl
  · rw [@Lemmas.count_moveVMsInto srv dcName folderPath vms Call.logout rfl, hwc,
      Nat.mul_zero]
  · rw [@Lemmas.count_destroyVMFolder srv dcName folderPath Call.logout rfl, hwc,
      Nat.mul_zero]
  · rw [@Lemmas.count_updateExtraConfig srv vm Call.logout rfl, hwc]

/-- C8: during path resolution, for every non-final segment of the path: if
zero children of the current folder carry the segment's exact name the
resolver fails with `NotFound`; if more than one child matches it fails with
`AmbiguousPath`; and the descent can only succeed when the match is unique —
a duplicate-name match is always fatal and never silently resolved by picking
one of the candidates. -/
theorem resolver_duplicate_names_fatal (srv : Server) (cur : MOR) (seg : String)
    (rest : List String) (hne : rest ≠ []) :
    (childrenNamed (children srv cur.value) seg = [] →
      (resolveFrom srv cur (seg :: rest)).2 =
        Res.err (ResolveError.notFound seg)) ∧
    (∀ a b l, childrenNamed (children srv cur.value) seg = a :: b :: l →
      (resolveFrom srv cur (seg :: rest)).2 =
        Res.err (ResolveError.ambiguousPath seg)) ∧
    (∀ r, (resolveFrom srv cur (seg :: rest)).2 = Res.ok r →
      ∃ c, childrenNamed (children srv cur.value) seg = [c]) := by
  refine ⟨fun h0 => ?_, fun a b l hab => ?_, fun r hr => ?_⟩
  · unfold resolveFrom
    rw [if_neg hne]
    simp [h0]
  · unfold resolveFrom
    rw [if_neg hne]
    simp [hab]
  · rcases hms : childrenNamed (children srv cur.value) seg with _ | ⟨c, _ | cs⟩
    · unfold resolveFrom at hr
      rw [if_neg hne] at hr
      simp [hms] at hr
    · exact ⟨c, rfl⟩
    · unfold resolveFrom at hr
      rw [if_neg hne] at hr
      simp [hms] at hr

/-- Witness for C8: on the fixture, the non-final segment `"nope"` matches no
child of the VM folder and resolution fails with `NotFound`; on a malformed
inventory with two siblings both named `"a"`, the non-final segment `"a"`
fails with `AmbiguousPath`. -/
theorem resolver_duplicate_names_fatal_witness :
    (resolveFrom fakeServer fakeVmFolderMOR ["nope", "x"]).2 =
      Res.err (ResolveError.notFound "nope") ∧
    (resolveFrom dupServer ⟨"Folder", "F"⟩ ["a", "x"]).2 =
      Res.err (ResolveError.ambiguousPath "a") := by
  constructor
  · exact (resolver_duplicate_names_fatal fakeServer fakeVmFolderMOR "nope" ["x"]
      (by decide)).1 (by decide)
  · have hne : ("x" :: [] : List String) ≠ [] := by decide
    have hcn : childrenNamed (children dupServer (MOR.mk "Folder" "F").value) "a" =
        ⟨⟨"Folder", "A1"⟩, [⟨"name", PropValue.str "a"⟩]⟩ ::
          ⟨⟨"Folder", "A2"⟩, [⟨"name", PropValue.str "a"⟩]⟩ :: [] := by
      decide
    exact (resolver_duplicate_names_fatal dupServer ⟨"Folder", "F"⟩ "a" ["x"]
      hne).2.1 _ _ _ hcn

/-- C9: when the destination folder path resolves, `MoveVMsInto` issues
exactly one `MoveIntoFolder_Task`, and that single call carries the resolved
folder and all the given VM references in one batch; it is followed by
exactly one task-wait subscription cycle; and the retrieval work (the
resolution of the destination) is independent of which and how many VM
references are being moved — the path is resolved once, not once per VM. -/
theorem moveVMsInto_single_batched_move (srv : Server) (dcName path : String)
    (vms vms2 : List MOR) (f : MOR)
    (h : (resolveFolder srv dcName path).2 = Res.ok f) :
    (moveVMsInto srv dcName path vms).filter isMoveInto =
      [Call.moveIntoFolderTask f vms] ∧
    (moveVMsInto srv dcName path vms).count Call.createPropertyCollector = 1 ∧
    (moveVMsInto srv dcName path vms).count Call.waitForUpdatesEx = 1 ∧
    (moveVMsInto srv dcName path vms).filter isRetrieve =
      (moveVMsInto srv dcName path vms2).filter isRetrieve := by
  have htr : ∀ ws : List MOR, moveVMsInto srv dcName path ws =
      (resolveFolder srv dcName path).1 ++ [Call.moveIntoFolderTask f ws] ++
        waitCycle := by
    intro ws
    unfold moveVMsInto
    rw [h, Lemmas.waitTask_trace]
  have hresR : (resolveFolder srv dcName path).1.filter isRetrieve =
      (resolveFolder srv dcName path).1 :=
    List.filter_eq_self.mpr (fun c hc => Lemmas.mem_resolveFolder_trace hc)
  have hresM : (resolveFolder srv dcName path).1.filter isMoveInto = [] := by
    refine List.filter_eq_nil_iff.mpr (fun c hc => ?_)
    have h1 := Lemmas.mem_resolveFolder_trace hc
    cases c <;> simp_all [isMoveInto, isRetrieve]
  refine ⟨?_, ?_, ?_, ?_⟩
  · rw [htr vms, List.filter_append, List.filter_append, hresM]
    simp [isMoveInto, waitCycle]
  · rw [htr vms, List.count_append, List.count_append,
      @Lemmas.count_resolveFolder_trace srv dcName path
        Call.createPropertyCollector rfl]
    simp [waitCycle, List.count_cons, List.count_singleton]
  · rw [htr vms, List.count_append, List.count_append,
      @Lemmas.count_resolveFolder_trace srv dcName path
        Call.waitForUpdatesEx rfl]
    simp [waitCycle, List.count_cons, List.count_singleton]
  · rw [htr vms, htr vms2, List.filter_append, List.filter_append,
      List.filter_append, List.filter_append, hresR]
    simp [isRetrieve, waitCycle]

/-- Witness for C9 at the fixture: moving the test's two VM references into
folder `"foo"` (which resolves to the controller VM folder). -/
theorem moveVMsInto_single_batched_move_witness :
    (moveVMsInto fakeServer "dc0" "foo"
        [⟨"VirtualMachine", "vm-0"⟩, ⟨"VirtualMachine", "vm-1"⟩]).filter
        isMoveInto =
      [Call.moveIntoFolderTask fakeControllerVmFolderMOR
        [⟨"VirtualMachine", "vm-0"⟩, ⟨"VirtualMachine", "vm-1"⟩]] ∧
    (moveVMsInto fakeServer "dc0" "foo"
        [⟨"VirtualMachine", "vm-0"⟩, ⟨"VirtualMachine", "vm-1"⟩]).count
        Call.createPropertyCollector = 1 ∧
    (moveVMsInto fakeServer "dc0" "foo"
        [⟨"VirtualMachine", "vm-0"⟩, ⟨"VirtualMachine", "vm-1"⟩]).count
        Call.waitForUpdatesEx = 1 ∧
    (moveVMsInto fakeServer "dc0" "foo"
        [⟨"VirtualMachine", "vm-0"⟩, ⟨"VirtualMachine", "vm-1"⟩]).filter
        isRetrieve =
      (moveVMsInto fakeServer "dc0" "foo" []).filter isRetrieve :=
  moveVMsInto_single_batched_move fakeServer "dc0" "foo"
    [⟨"VirtualMachine", "vm-0"⟩, ⟨"VirtualMachine", "vm-1"⟩] []
    fakeControllerVmFolderMOR (by decide)

/-- C10: `DeleteDatastoreFile` passes the caller-supplied datastore path
string verbatim as the argument of the single remote file-delete call it
issues, and the only property retrievals in its trace are the two root-folder
retrievals of the datacenter lookup — the path is not resolved through the
Path Resolver and no datastore child enumeration precedes the delete call. -/
theorem deleteDatastoreFile_path_verbatim (srv : Server) (path : String) :
    (deleteDatastoreFile srv path).1.filter isDeleteFile =
      [Call.deleteDatastoreFile path] ∧
    (deleteDatastoreFile srv path).1.filter isRetrieve =
      [Call.retrieveProperties [srv.rootFolder],
       Call.retrieveProperties [srv.rootFolder]] := by
  unfold deleteDatastoreFile
  rw [Lemmas.waitTask_trace]
  constructor <;> simp [waitCycle, isDeleteFile, isRetrieve]

end VSphereClient
